import Mathlib

/-!
Verification development for the student-registration backend (`index.py`).

The repository is a single Flask handler `register_student_and_generate_ticket`
plus a helper `generate_unique_student_id`.  This file gives a shallow
embedding of that code:

* Python byte strings become `List Nat` (each entry a byte value),
* `hashlib.sha256(...).hexdigest()` is embedded as a full executable SHA-256
  over `Nat` arithmetic with explicit `% 2^32` reductions,
* the MongoDB collection becomes a list of `StudentRecord`s
  (`find_one` is `List.find?`, `insert_one` appends),
* the Vercel-blob asset store becomes an association list keyed by blob name,
* the PIL image calls become constructors of a symbolic image algebra `Img`
  whose size/mode observers follow the library's documented semantics,
* every external effect that can raise (blob upload, record insert, asset
  loading, the HTTP fetch of the stored photo, photo decoding) is an oracle
  in an `Env` record returning `Except Unit _`; a raised exception is
  `Except.error ()` and is caught by the handler's generic `except` block.
-/

/-! ## Bytes and UTF-8 -/

/-- Byte strings are lists of byte values. -/
abbrev Bytes := List Nat

/-- Embedding of Python's `s.encode('utf-8')`. -/
def strBytes (s : String) : Bytes :=
  s.toUTF8.toList.map (fun b => b.toNat)

/-! ## SHA-256 (`hashlib.sha256`)

A faithful executable SHA-256 over `Nat`, all word arithmetic reduced
modulo `2^32`.  Only the hex-encoding layer is needed by the proofs; the
compression function is included so the embedding is the real function.
-/

/-- Two to the thirty-second power, the word modulus. -/
def M32 : Nat := 4294967296

/-- Rotate a 32-bit word right by `n` bits. -/
def rotr32 (x n : Nat) : Nat :=
  ((x >>> n) ||| (x <<< (32 - n))) % M32

/-- Message-schedule sigma-0. -/
def smallSigma0 (x : Nat) : Nat := (rotr32 x 7) ^^^ (rotr32 x 18) ^^^ (x >>> 3)

/-- Message-schedule sigma-1. -/
def smallSigma1 (x : Nat) : Nat := (rotr32 x 17) ^^^ (rotr32 x 19) ^^^ (x >>> 10)

/-- Round big sigma-0. -/
def bigSigma0 (x : Nat) : Nat := (rotr32 x 2) ^^^ (rotr32 x 13) ^^^ (rotr32 x 22)

/-- Round big sigma-1. -/
def bigSigma1 (x : Nat) : Nat := (rotr32 x 6) ^^^ (rotr32 x 11) ^^^ (rotr32 x 25)

/-- The choice function of the SHA-256 round. -/
def chV (e f g : Nat) : Nat := (e &&& f) ^^^ (((M32 - 1) ^^^ e) &&& g)

/-- The majority function of the SHA-256 round. -/
def majV (a b c : Nat) : Nat := (a &&& b) ^^^ (a &&& c) ^^^ (b &&& c)

/-- The eight-word SHA-256 state. -/
abbrev H8 := Nat × Nat × Nat × Nat × Nat × Nat × Nat × Nat

/-- The SHA-256 round constants. -/
def kConst : List Nat :=
  [1116352408, 1899447441, 3049323471, 3921009573,
   961987163, 1508970993, 2453635748, 2870763221,
   3624381080, 310598401, 607225278, 1426881987,
   1925078388, 2162078206, 2614888103, 3248222580,
   3835390401, 4022224774, 264347078, 604807628,
   770255983, 1249150122, 1555081692, 1996064986,
   2554220882, 2821834349, 2952996808, 3210313671,
   3336571891, 3584528711, 113926993, 338241895,
   666307205, 773529912, 1294757372, 1396182291,
   1695183700, 1986661051, 2177026350, 2456956037,
   2730485921, 2820302411, 3259730800, 3345764771,
   3516065817, 3600352804, 4094571909, 275423344,
   430227734, 506948616, 659060556, 883997877,
   958139571, 1322822218, 1537002063, 1747873779,
   1955562222, 2024104815, 2227730452, 2361852424,
   2428436474, 2756734187, 3204031479, 3329325298]

/-- The SHA-256 initial hash value. -/
def initH : H8 :=
  (1779033703, 3144134277, 1013904242,
   2773480762, 1359893119, 2600822924,
   528734635, 1541459225)

/-- Extend a 16-word block schedule by `k` further words. -/
def extendSchedule (w : List Nat) (k : Nat) : List Nat :=
  match k with
  | 0 => w
  | k' + 1 =>
    let i := w.length
    let next := (w.getD (i - 16) 0 + smallSigma0 (w.getD (i - 15) 0)
                  + w.getD (i - 7) 0 + smallSigma1 (w.getD (i - 2) 0)) % M32
    extendSchedule (w ++ [next]) k'

/-- One round of the SHA-256 compression loop. -/
def roundStep (st : H8) (kw : Nat × Nat) : H8 :=
  match st, kw with
  | (a, b, c, d, e, f, g, h), (ki, wi) =>
    let t1 := (h + bigSigma1 e + chV e f g + ki + wi) % M32
    let t2 := (bigSigma0 a + majV a b c) % M32
    ((t1 + t2) % M32, a, b, c, (d + t1) % M32, e, f, g)

/-- Compress one 64-word schedule into the running hash state. -/
def compressBlock (hv : H8) (ws : List Nat) : H8 :=
  match hv, (kConst.zip ws).foldl roundStep hv with
  | (h0, h1, h2, h3, h4, h5, h6, h7), (a, b, c, d, e, f, g, h) =>
    ((h0 + a) % M32, (h1 + b) % M32, (h2 + c) % M32, (h3 + d) % M32,
     (h4 + e) % M32, (h5 + f) % M32, (h6 + g) % M32, (h7 + h) % M32)

/-- SHA-256 message padding: a `0x80` byte, zeros to 56 mod 64, then the
bit length as an eight-byte big-endian integer. -/
def padMessage (msg : Bytes) : Bytes :=
  let len := msg.length
  let bitLen := 8 * len
  let k := (119 - (len % 64)) % 64
  msg ++ [128] ++ List.replicate k 0 ++
    [(bitLen >>> 56) % 256, (bitLen >>> 48) % 256, (bitLen >>> 40) % 256, (bitLen >>> 32) % 256,
     (bitLen >>> 24) % 256, (bitLen >>> 16) % 256, (bitLen >>> 8) % 256, bitLen % 256]

/-- Split a padded message into 64-byte blocks. -/
def chunk64 : Bytes → List Bytes
  | [] => []
  | b :: rest => (b :: rest).take 64 :: chunk64 ((b :: rest).drop 64)
termination_by l => l.length
decreasing_by simp [List.length_drop]; omega

/-- Combine bytes into big-endian 32-bit words. -/
def bytesToWords : Bytes → List Nat
  | b0 :: b1 :: b2 :: b3 :: rest =>
    (b0 * 16777216 + b1 * 65536 + b2 * 256 + b3) :: bytesToWords rest
  | _ => []

/-- The SHA-256 digest of a byte string, as eight 32-bit words. -/
def sha256words (msg : Bytes) : H8 :=
  (chunk64 (padMessage msg)).foldl
    (fun hv blk => compressBlock hv (extendSchedule (bytesToWords blk) 48)) initH

/-- The sixteen lowercase hex digits. -/
def hexDigits : List Char :=
  ['0', '1', '2', '3', '4', '5', '6', '7'] ++ ['8', '9', 'a', 'b', 'c', 'd', 'e', 'f']

/-- The lowercase hex digit of a nibble. -/
def hexChar (n : Nat) : Char := hexDigits.getD (n % 16) '0'

/-- The two lowercase hex digits of a byte. -/
def byteHexChars (b : Nat) : List Char := [hexChar (b / 16), hexChar b]

/-- The eight lowercase hex digits of a 32-bit word, most significant first. -/
def wordHexChars (w : Nat) : List Char :=
  byteHexChars ((w >>> 24) % 256) ++ byteHexChars ((w >>> 16) % 256) ++
  byteHexChars ((w >>> 8) % 256) ++ byteHexChars (w % 256)

/-- The 64 characters of `hashlib.sha256(msg).hexdigest()`. -/
def sha256hexChars (msg : Bytes) : List Char :=
  match sha256words msg with
  | (a, b, c, d, e, f, g, h) =>
    wordHexChars a ++ wordHexChars b ++ wordHexChars c ++ wordHexChars d ++
    wordHexChars e ++ wordHexChars f ++ wordHexChars g ++ wordHexChars h

/-- Embedding of `hashlib.sha256(msg).hexdigest()`. -/
def hexdigest (msg : Bytes) : String := String.mk (sha256hexChars msg)

/-! ## The identifier generator (`generate_unique_student_id`) -/

/-- Python string slicing `s[:n]`; Python strings are character sequences. -/
def pyTake (s : String) (n : Nat) : String := String.mk (s.data.take n)

/-- Python `s.upper()` on ASCII text, character by character. -/
def pyUpper (s : String) : String := String.mk (s.data.map Char.toUpper)

/-- Embedding of `generate_unique_student_id` (source lines 50-54).  The
ambient values `str(uuid.uuid4())`, the `SECRET_KEY` environment variable
(with its local default), and `str(datetime.now())` are passed in as the
arguments `uuid4`, `secret_key`, `now`. -/
def generate_unique_student_id (uuid4 secret_key now : String) : String :=
  let unique_string := uuid4 ++ secret_key ++ now
  let hashed_id := hexdigest (strBytes unique_string)
  "STU-" ++ pyUpper (pyTake hashed_id 8)

/-! ## The symbolic image algebra

The handler's PIL calls are embedded as constructors of a symbolic
image algebra.  `source` stands for an externally decoded image (the
template file, or the fetched profile photo) with its intrinsic pixel
size and mode; the other constructors mirror the library operations the
source applies.  The observers `imgWidth` / `imgHeight` / `imgMode`
follow the library's documented semantics: `resize` and `new` set the
size, `convert` sets the mode, `paste` and text drawing mutate the base
image in place (keeping its size and mode), and `alpha_composite`
requires two equal-size RGBA images and returns an RGBA image of that
size.
-/

/-- A loaded truetype font: `ImageFont.truetype(path, size)`. -/
structure Font where
  path : String
  size : Nat
  deriving DecidableEq

/-- Symbolic images: the terms the handler's PIL calls build. -/
inductive Img where
  | source (tag : Nat) (w : Nat) (h : Nat) (mode : String)
  | resize (i : Img) (w : Nat) (h : Nat)
  | convert (i : Img) (mode : String)
  | qrMake (payload : String)
  | newImg (mode : String) (w : Nat) (h : Nat) (r g b a : Nat)
  | paste (base : Img) (overlay : Img) (x : Int) (y : Int)
  | text (base : Img) (x : Int) (y : Int) (s : String) (font : Font) (fill : String)
  | alphaComposite (a : Img) (b : Img)
  deriving DecidableEq

/-- Pixel width of a symbolic image.  The pre-resize size of a QR image is
never observed by the source (its width is read only after the resize to
180 by 180), so it is modelled as 0. -/
def imgWidth : Img → Nat
  | .source _ w _ _ => w
  | .resize _ w _ => w
  | .convert i _ => imgWidth i
  | .qrMake _ => 0
  | .newImg _ w _ _ _ _ _ => w
  | .paste b _ _ _ => imgWidth b
  | .text b _ _ _ _ _ => imgWidth b
  | .alphaComposite a _ => imgWidth a

/-- Pixel height of a symbolic image. -/
def imgHeight : Img → Nat
  | .source _ _ h _ => h
  | .resize _ _ h => h
  | .convert i _ => imgHeight i
  | .qrMake _ => 0
  | .newImg _ _ h _ _ _ _ => h
  | .paste b _ _ _ => imgHeight b
  | .text b _ _ _ _ _ => imgHeight b
  | .alphaComposite a _ => imgHeight a

/-- Mode of a symbolic image (the qrcode library yields a bilevel image). -/
def imgMode : Img → String
  | .source _ _ _ m => m
  | .resize i _ _ => imgMode i
  | .convert _ m => m
  | .qrMake _ => "1"
  | .newImg m _ _ _ _ _ _ => m
  | .paste b _ _ _ => imgMode b
  | .text b _ _ _ _ _ => imgMode b
  | .alphaComposite _ _ => "RGBA"

/-- The paste operations recorded in an image, in execution order: for each,
the pasted overlay and the paste position. -/
def pastes : Img → List (Img × Int × Int)
  | .paste b o x y => pastes b ++ [(o, x, y)]
  | .text b _ _ _ _ _ => pastes b
  | .convert i _ => pastes i
  | .resize i _ _ => pastes i
  | .alphaComposite a b => pastes a ++ pastes b
  | _ => []

/-- The text-drawing operations recorded in an image, in execution order:
position, drawn string, font and fill colour. -/
def texts : Img → List (Int × Int × String × Font × String)
  | .text b x y s f fill => texts b ++ [(x, y, s, f, fill)]
  | .paste b _ _ _ => texts b
  | .convert i _ => texts i
  | .resize i _ _ => texts i
  | .alphaComposite a b => texts a ++ texts b
  | _ => []

/-- Serialisation of a font for the PNG byte stream model. -/
def encodeFont (f : Font) : Bytes := [0] ++ strBytes f.path ++ [f.size]

/-- Model of `final_image.save(img_io, 'PNG')`: the PNG encoder is a
deterministic function of the composed image (the actual byte format of
the external encoder is out of scope; what matters to the claims is that
the byte stream is a function of the image alone). -/
def encodePNG : Img → Bytes
  | .source tag w h m => [1, tag, w, h] ++ strBytes m
  | .resize i w h => [2, w, h] ++ encodePNG i
  | .convert i m => [3] ++ strBytes m ++ encodePNG i
  | .qrMake p => [4] ++ strBytes p
  | .newImg m w h r g b a => [5, w, h, r, g, b, a] ++ strBytes m
  | .paste b o x y => [6, x.natAbs, y.natAbs] ++ encodePNG o ++ encodePNG b
  | .text b x y s f fill =>
    [7, x.natAbs, y.natAbs] ++ strBytes s ++ encodeFont f ++ strBytes fill ++ encodePNG b
  | .alphaComposite a b => [8] ++ encodePNG a ++ encodePNG b

/-- Horizontal coordinate of the card rectangle's left edge
(source lines 127-128): `card_center_x - card_width // 2` with
`card_center_x = template.width // 2` and `card_width = 800`. -/
def cardLeft (templateWidth : Nat) : Int :=
  ((templateWidth / 2 : Nat) : Int) - ((800 / 2 : Nat) : Int)

/-- Vertical coordinate of the card rectangle's top edge
(source lines 127-128): `card_center_y - card_height // 2` with
`card_center_y = template.height // 2` and `card_height = 300`. -/
def cardTop (templateHeight : Nat) : Int :=
  ((templateHeight / 2 : Nat) : Int) - ((300 / 2 : Nat) : Int)

/-- Embedding of the ticket composition, source lines 117 and 121-137:
convert the opened template to RGBA, resize the decoded photo and the QR
image to 180 by 180, paste both onto a transparent overlay of the
template's size, draw the three text lines, alpha-composite the overlay
onto the template and flatten to RGB.  `t0` is the image decoded from the
template file and `photo0` the image decoded from the fetched photo
bytes; fallible loading and fetching happen in the caller. -/
def renderTicket (t0 : Img) (font_name font_details : Font) (photo0 : Img)
    (student_name study_year generated_student_id : String) : Img :=
  let template := Img.convert t0 "RGBA"
  let profile_pic_ticket := Img.resize photo0 180 180
  let qr_img := Img.resize (Img.qrMake generated_student_id) 180 180
  let card_layer0 := Img.newImg "RGBA" (imgWidth template) (imgHeight template) 255 255 255 0
  let card_left := cardLeft (imgWidth template)
  let card_top := cardTop (imgHeight template)
  let profile_pic_on_card_x := card_left + 25
  let profile_pic_on_card_y := card_top + 60
  let qr_img_on_card_x := card_left + 800 - ((imgWidth qr_img : Nat) : Int) - 25
  let card_layer1 := Img.paste card_layer0 profile_pic_ticket profile_pic_on_card_x profile_pic_on_card_y
  let card_layer2 := Img.paste card_layer1 qr_img qr_img_on_card_x profile_pic_on_card_y
  let text_start_x := profile_pic_on_card_x + ((imgWidth profile_pic_ticket : Nat) : Int) + 30
  let card_layer3 := Img.text card_layer2 text_start_x (profile_pic_on_card_y + 10) student_name font_name "white"
  let card_layer4 := Img.text card_layer3 text_start_x (profile_pic_on_card_y + 70) study_year font_details "#cccccc"
  let card_layer5 := Img.text card_layer4 text_start_x (profile_pic_on_card_y + 110)
      ("ID: " ++ generated_student_id) font_details "#cccccc"
  Img.convert (Img.alphaComposite template card_layer5) "RGB"

/-! ## Data model and request handling -/

/-- A stored student document (source lines 107-111); `registered_at`
abstracts `datetime.utcnow()` as a number. -/
structure StudentRecord where
  roll_no : String
  student_id : String
  name : String
  year : String
  profile_pic_url : String
  status : String
  registered_at : Nat
  deriving DecidableEq

/-- Embedding of `students_collection.insert_one` (source line 112): a
plain MongoDB insert on a collection with no unique index beyond `_id`;
it appends the document unconditionally. -/
def insert_one (db : List StudentRecord) (doc : StudentRecord) : List StudentRecord :=
  db ++ [doc]

/-- Uniqueness of roll numbers across a record list. -/
def rollsUnique (db : List StudentRecord) : Prop :=
  db.Pairwise (fun a b => a.roll_no ≠ b.roll_no)

/-- An uploaded multipart file: a Werkzeug `FileStorage` with its client
filename and content; its Python truthiness is the truthiness of its
filename. -/
structure UploadedFile where
  filename : String
  content : Bytes
  deriving DecidableEq

/-- The multipart form of a request: `request.form.get` / `request.files.get`
yield `none` for an absent field. -/
structure ReqForm where
  studentName : Option String
  rollNo : Option String
  studyYear : Option String
  profileImage : Option UploadedFile
  deriving DecidableEq

/-- Python truthiness of a form string: absent or empty is falsy. -/
def truthyStr : Option String → Bool
  | none => false
  | some s => !(s == "")

/-- Python truthiness of an uploaded file: absent, or present with an
empty filename, is falsy. -/
def truthyFile : Option UploadedFile → Bool
  | none => false
  | some f => !(f.filename == "")

/-- Embedding of `all([student_name, roll_no, study_year, profile_image_file])`
from source line 81. -/
def formComplete (req : ReqForm) : Bool :=
  truthyStr req.studentName && truthyStr req.rollNo &&
  truthyStr req.studyYear && truthyFile req.profileImage

/-- Server state: the module-level `students_collection` (which is `None`
when the startup MongoDB connection failed) and the blob store's contents
keyed by blob name. -/
structure ServerState where
  collection : Option (List StudentRecord)
  assets : List (String × Bytes)
  deriving DecidableEq

/-- A response body: a `jsonify` error object with the given message for
its single `error` key, or a `send_file` attachment. -/
inductive RespBody where
  | jsonError (msg : String)
  | file (bytes : Bytes) (mimetype : String) (downloadName : String)
  deriving DecidableEq

/-- An HTTP response: status code and body. -/
structure Response where
  status : Nat
  body : RespBody
  deriving DecidableEq

/-- The generic catch-all error response (source line 151). -/
def genericError : Response :=
  ⟨500, RespBody.jsonError "An unexpected server error occurred."⟩

/-- The per-request external world: the ambient values consumed by the
handler and the outcomes of its fallible external calls.  Each
`Except Unit _` oracle returns `Except.error ()` when the corresponding
library call raises; the handler's `except` block catches every such
exception. -/
structure Env where
  uuid : String
  secret : String
  nowStr : String
  utcnow : Nat
  blobPut : String → Bytes → Except Unit String
  insertOk : Bool
  loadTemplate : Except Unit Img
  loadFontBold : Except Unit Font
  loadFontReg : Except Unit Font
  fetch : String → Except Unit Bytes
  decodePhoto : Bytes → Except Unit Img

/-- The blob name `f"profile_pics/{generated_student_id}_{filename}"`
(source line 99). -/
def profileKey (generated_student_id : String) (f : UploadedFile) : String :=
  "profile_pics/" ++ generated_student_id ++ "_" ++ f.filename

/-- Embedding of the handler `register_student_and_generate_ticket`
(source lines 63-151) as a function from environment, server state and
request form to the successor state and the HTTP response:

1. a `None` collection short-circuits to a 500 with its own message;
2. missing or falsy form data yields a 400 (`not all([...])`);
3. a `find_one` hit on the roll number yields a 409 before any write;
4. the photo is uploaded to the blob store (state grows on success, any
   exception yields the generic 500 with no state change);
5. the document is inserted (unconditionally on success of the driver
   call; an exception yields the generic 500 with the uploaded asset kept);
6. template, fonts, fetched photo bytes and photo decoding each may
   raise, yielding the generic 500 with asset and record kept;
7. otherwise the composed ticket is returned as a PNG attachment. -/
def register_student_and_generate_ticket (env : Env) (st : ServerState) (req : ReqForm) :
    ServerState × Response :=
  match st.collection with
  | none => (st, ⟨500, RespBody.jsonError "Database connection failed at startup."⟩)
  | some db =>
    match req.studentName, req.rollNo, req.studyYear, req.profileImage with
    | some student_name, some roll_no, some study_year, some profile_image_file =>
      if student_name = "" ∨ roll_no = "" ∨ study_year = "" ∨ profile_image_file.filename = "" then
        (st, ⟨400, RespBody.jsonError "Missing form data."⟩)
      else
        match db.find? (fun r => r.roll_no == roll_no) with
        | some _ =>
          (st, ⟨409, RespBody.jsonError ("Roll Number '" ++ roll_no ++ "' already exists.")⟩)
        | none =>
          match env.blobPut
              (profileKey (generate_unique_student_id env.uuid env.secret env.nowStr)
                profile_image_file)
              profile_image_file.content with
          | Except.error _ => (st, genericError)
          | Except.ok profile_pic_url =>
            if env.insertOk then
              match env.loadTemplate, env.loadFontBold, env.loadFontReg with
              | Except.ok t0, Except.ok font_name, Except.ok font_details =>
                match env.fetch profile_pic_url with
                | Except.ok content =>
                  match env.decodePhoto content with
                  | Except.ok photo0 =>
                    (⟨some (insert_one db
                        ⟨roll_no, generate_unique_student_id env.uuid env.secret env.nowStr,
                         student_name, study_year, profile_pic_url, "Active", env.utcnow⟩),
                      st.assets ++
                        [(profileKey (generate_unique_student_id env.uuid env.secret env.nowStr)
                            profile_image_file,
                          profile_image_file.content)]⟩,
                     ⟨200, RespBody.file
                        (encodePNG (renderTicket t0 font_name font_details photo0
                          student_name study_year
                          (generate_unique_student_id env.uuid env.secret env.nowStr)))
                        "image/png"
                        (generate_unique_student_id env.uuid env.secret env.nowStr
                          ++ "_ticket.png")⟩)
                  | Except.error _ =>
                    (⟨some (insert_one db
                        ⟨roll_no, generate_unique_student_id env.uuid env.secret env.nowStr,
                         student_name, study_year, profile_pic_url, "Active", env.utcnow⟩),
                      st.assets ++
                        [(profileKey (generate_unique_student_id env.uuid env.secret env.nowStr)
                            profile_image_file,
                          profile_image_file.content)]⟩, genericError)
                | Except.error _ =>
                  (⟨some (insert_one db
                      ⟨roll_no, generate_unique_student_id env.uuid env.secret env.nowStr,
                       student_name, study_year, profile_pic_url, "Active", env.utcnow⟩),
                    st.assets ++
                      [(profileKey (generate_unique_student_id env.uuid env.secret env.nowStr)
                          profile_image_file,
                        profile_image_file.content)]⟩, genericError)
              | _, _, _ =>
                (⟨some (insert_one db
                    ⟨roll_no, generate_unique_student_id env.uuid env.secret env.nowStr,
                     student_name, study_year, profile_pic_url, "Active", env.utcnow⟩),
                  st.assets ++
                    [(profileKey (generate_unique_student_id env.uuid env.secret env.nowStr)
                        profile_image_file,
                      profile_image_file.content)]⟩, genericError)
            else
              (⟨some db,
                st.assets ++
                  [(profileKey (generate_unique_student_id env.uuid env.secret env.nowStr)
                      profile_image_file,
                    profile_image_file.content)]⟩, genericError)
    | _, _, _, _ => (st, ⟨400, RespBody.jsonError "Missing form data."⟩)

/-! ## Concrete material for the closed witnesses -/

/-- A concrete uploaded file. -/
def fW : UploadedFile := ⟨"me.png", [9, 9, 9]⟩

/-- A complete, valid registration form. -/
def reqW : ReqForm := ⟨some "Alice", some "R1", some "Year 1", some fW⟩

/-- A form with the roll number absent. -/
def reqMissingRoll : ReqForm := ⟨some "Alice", none, some "Year 1", some fW⟩

/-- A form whose student name is present but the empty string. -/
def reqEmptyName : ReqForm := ⟨some "", some "R1", some "Year 1", some fW⟩

/-- A server state with an empty collection and no stored assets. -/
def stW : ServerState := ⟨some [], []⟩

/-- An environment in which every external call succeeds. -/
def envW : Env :=
  ⟨"uuid-1", "secret", "now", 0,
   fun _ _ => Except.ok "https://blob.example/p.png", true,
   Except.ok (Img.source 0 1200 600 "RGB"),
   Except.ok ⟨"Poppins-Bold.ttf", 48⟩,
   Except.ok ⟨"Poppins-Regular.ttf", 32⟩,
   fun _ => Except.ok [9, 9, 9],
   fun _ => Except.ok (Img.source 1 640 480 "RGB")⟩

/-- An environment whose blob upload raises. -/
def envBlobFail : Env :=
  ⟨"uuid-1", "secret", "now", 0,
   fun _ _ => Except.error (), true,
   Except.ok (Img.source 0 1200 600 "RGB"),
   Except.ok ⟨"Poppins-Bold.ttf", 48⟩,
   Except.ok ⟨"Poppins-Regular.ttf", 32⟩,
   fun _ => Except.ok [9, 9, 9],
   fun _ => Except.ok (Img.source 1 640 480 "RGB")⟩

/-- An environment whose photo fetch-back raises, so that the request
fails after the upload and the insert already happened. -/
def envFetchFail : Env :=
  ⟨"uuid-1", "secret", "now", 0,
   fun _ _ => Except.ok "https://blob.example/p.png", true,
   Except.ok (Img.source 0 1200 600 "RGB"),
   Except.ok ⟨"Poppins-Bold.ttf", 48⟩,
   Except.ok ⟨"Poppins-Regular.ttf", 32⟩,
   fun _ => Except.error (),
   fun _ => Except.ok (Img.source 1 640 480 "RGB")⟩

/-- A stored record. -/
def recA : StudentRecord := ⟨"R1", "STU-00000001", "Alice", "Year 1", "u1", "Active", 0⟩

/-- A record with the same roll number as `recA` but another student id. -/
def recB : StudentRecord := ⟨"R1", "STU-00000002", "Bob", "Year 2", "u2", "Active", 1⟩

/-- A record with the same student id as `recA` but another roll number. -/
def recC : StudentRecord := ⟨"R2", "STU-00000001", "Carol", "Year 3", "u3", "Active", 2⟩

/-! ## Inversion of a successful registration

A 200 response pins down the whole execution path: the collection was
available, every field was present and truthy, the duplicate check found
nothing, and every external call succeeded.  This lemma is shared by the
claims about successful runs. -/

theorem register_success_inv (env : Env) (st : ServerState) (req : ReqForm)
    (st' : ServerState) (resp : Response)
    (h : register_student_and_generate_ticket env st req = (st', resp))
    (h200 : resp.status = 200) :
    ∃ db n r y f url t0 fb fr content photo0,
      st.collection = some db ∧
      req.studentName = some n ∧ req.rollNo = some r ∧
      req.studyYear = some y ∧ req.profileImage = some f ∧
      ¬(n = "" ∨ r = "" ∨ y = "" ∨ f.filename = "") ∧
      db.find? (fun x => x.roll_no == r) = none ∧
      env.blobPut (profileKey (generate_unique_student_id env.uuid env.secret env.nowStr) f)
          f.content = Except.ok url ∧
      env.insertOk = true ∧
      env.loadTemplate = Except.ok t0 ∧
      env.loadFontBold = Except.ok fb ∧
      env.loadFontReg = Except.ok fr ∧
      env.fetch url = Except.ok content ∧
      env.decodePhoto content = Except.ok photo0 ∧
      st' = ⟨some (insert_one db
              ⟨r, generate_unique_student_id env.uuid env.secret env.nowStr, n, y, url,
               "Active", env.utcnow⟩),
             st.assets ++
               [(profileKey (generate_unique_student_id env.uuid env.secret env.nowStr) f,
                 f.content)]⟩ ∧
      resp = ⟨200, RespBody.file
               (encodePNG (renderTicket t0 fb fr photo0 n y
                  (generate_unique_student_id env.uuid env.secret env.nowStr)))
               "image/png"
               (generate_unique_student_id env.uuid env.secret env.nowStr ++ "_ticket.png")⟩ := by
  rcases hdb : st.collection with _ | db
  · simp only [register_student_and_generate_ticket, hdb, Prod.mk.injEq] at h
    rw [← h.2] at h200
    simp at h200
  rcases hn : req.studentName with _ | n
  · simp only [register_student_and_generate_ticket, hdb, hn, Prod.mk.injEq] at h
    rw [← h.2] at h200
    simp at h200
  rcases hr : req.rollNo with _ | r
  · simp only [register_student_and_generate_ticket, hdb, hn, hr, Prod.mk.injEq] at h
    rw [← h.2] at h200
    simp at h200
  rcases hy : req.studyYear with _ | y
  · simp only [register_student_and_generate_ticket, hdb, hn, hr, hy, Prod.mk.injEq] at h
    rw [← h.2] at h200
    simp at h200
  rcases hf : req.profileImage with _ | f
  · simp only [register_student_and_generate_ticket, hdb, hn, hr, hy, hf, Prod.mk.injEq] at h
    rw [← h.2] at h200
    simp at h200
  by_cases hval : (n = "" ∨ r = "" ∨ y = "" ∨ f.filename = "")
  · simp only [register_student_and_generate_ticket, hdb, hn, hr, hy, hf, if_pos hval,
      Prod.mk.injEq] at h
    rw [← h.2] at h200
    simp at h200
  rcases hfind : db.find? (fun x => x.roll_no == r) with _ | rec
  swap
  · simp only [register_student_and_generate_ticket, hdb, hn, hr, hy, hf, if_neg hval,
      hfind, Prod.mk.injEq] at h
    rw [← h.2] at h200
    simp at h200
  rcases hblob : env.blobPut
      (profileKey (generate_unique_student_id env.uuid env.secret env.nowStr) f)
      f.content with e | url
  · simp only [register_student_and_generate_ticket, hdb, hn, hr, hy, hf, if_neg hval,
      hfind, hblob, genericError, Prod.mk.injEq] at h
    rw [← h.2] at h200
    simp at h200
  rcases hins : env.insertOk with _ | _
  · simp only [register_student_and_generate_ticket, hdb, hn, hr, hy, hf, if_neg hval,
      hfind, hblob, hins, Bool.false_eq_true, if_false, eq_self_iff_true, if_true,
      genericError, Prod.mk.injEq] at h
    rw [← h.2] at h200
    simp at h200
  rcases hT : env.loadTemplate with e | t0
  · simp only [register_student_and_generate_ticket, hdb, hn, hr, hy, hf, if_neg hval,
      hfind, hblob, hins, hT, eq_self_iff_true, if_true,
      genericError, Prod.mk.injEq] at h
    rw [← h.2] at h200
    simp at h200
  rcases hFB : env.loadFontBold with e | fb
  · simp only [register_student_and_generate_ticket, hdb, hn, hr, hy, hf, if_neg hval,
      hfind, hblob, hins, hT, hFB, eq_self_iff_true, if_true,
      genericError, Prod.mk.injEq] at h
    rw [← h.2] at h200
    simp at h200
  rcases hFR : env.loadFontReg with e | fr
  · simp only [register_student_and_generate_ticket, hdb, hn, hr, hy, hf, if_neg hval,
      hfind, hblob, hins, hT, hFB, hFR, eq_self_iff_true, if_true,
      genericError, Prod.mk.injEq] at h
    rw [← h.2] at h200
    simp at h200
  rcases hfetch : env.fetch url with e | content
  · simp only [register_student_and_generate_ticket, hdb, hn, hr, hy, hf, if_neg hval,
      hfind, hblob, hins, hT, hFB, hFR, hfetch, eq_self_iff_true, if_true,
      genericError, Prod.mk.injEq] at h
    rw [← h.2] at h200
    simp at h200
  rcases hdec : env.decodePhoto content with e | photo0
  · simp only [register_student_and_generate_ticket, hdb, hn, hr, hy, hf, if_neg hval,
      hfind, hblob, hins, hT, hFB, hFR, hfetch, hdec, eq_self_iff_true, if_true,
      genericError, Prod.mk.injEq] at h
    rw [← h.2] at h200
    simp at h200
  simp only [register_student_and_generate_ticket, hdb, hn, hr, hy, hf, if_neg hval,
    hfind, hblob, hins, hT, hFB, hFR, hfetch, hdec, eq_self_iff_true, if_true,
    Prod.mk.injEq] at h
  exact ⟨db, n, r, y, f, url, t0, fb, fr, content, photo0,
    rfl, rfl, rfl, rfl, rfl, hval, hfind, hblob, rfl, rfl, rfl, rfl, hfetch, hdec,
    h.1.symm, h.2.symm⟩

/-! ## The student-identifier pattern (claim C5) -/

/-- The sixteen uppercase hex digits. -/
def upperHexDigits : List Char :=
  ['0', '1', '2', '3', '4', '5', '6', '7', '8', '9', 'A', 'B', 'C', 'D', 'E', 'F']

/-- Decidable match against the pattern `STU-[0-9A-F]\x7b8\x7d`. -/
def matchesStuPattern (s : String) : Bool :=
  s.data.length == 12 && s.data.take 4 == "STU-".data &&
  (s.data.drop 4).all (fun c => upperHexDigits.contains c)

theorem data_append (a b : String) : (a ++ b).data = a.data ++ b.data := rfl

theorem hexChar_mem (n : Nat) : hexChar n ∈ hexDigits := by
  unfold hexChar
  have h : n % 16 < hexDigits.length := by
    have : n % 16 < 16 := Nat.mod_lt _ (by norm_num)
    simpa [hexDigits] using this
  rw [List.getD_eq_getElem _ _ h]
  exact List.getElem_mem _

theorem mem_byteHexChars {c : Char} {b : Nat} (h : c ∈ byteHexChars b) : c ∈ hexDigits := by
  simp only [byteHexChars, List.mem_cons, List.not_mem_nil, or_false] at h
  rcases h with rfl | rfl <;> exact hexChar_mem _

theorem mem_wordHexChars {c : Char} {w : Nat} (h : c ∈ wordHexChars w) : c ∈ hexDigits := by
  unfold wordHexChars at h
  rcases List.mem_append.1 h with h | h
  · rcases List.mem_append.1 h with h | h
    · rcases List.mem_append.1 h with h | h <;> exact mem_byteHexChars h
    · exact mem_byteHexChars h
  · exact mem_byteHexChars h

theorem mem_sha256hexChars {c : Char} {msg : Bytes} (h : c ∈ sha256hexChars msg) :
    c ∈ hexDigits := by
  unfold sha256hexChars at h
  rcases hw : sha256words msg with ⟨a, b, d, e, f, g, i, j⟩
  rw [hw] at h
  simp only [List.mem_append] at h
  rcases h with ((((((h | h) | h) | h) | h) | h) | h) | h <;> exact mem_wordHexChars h

theorem sha256hexChars_length (msg : Bytes) : (sha256hexChars msg).length = 64 := by
  unfold sha256hexChars
  rcases sha256words msg with ⟨a, b, d, e, f, g, i, j⟩
  simp [wordHexChars, byteHexChars]

theorem toUpper_hexDigit {c : Char} (h : c ∈ hexDigits) :
    upperHexDigits.contains c.toUpper = true := by
  fin_cases h <;> decide

/-- C5: every generated student identifier is the string `STU-` followed by
the first eight characters, uppercased, of the SHA-256 hex digest of the
concatenation of the random UUID, the secret key and the current
timestamp, and consequently it matches the pattern `STU-` followed by
eight uppercase hex digits. -/
theorem C5_student_id_format (u k t : String) :
    generate_unique_student_id u k t =
      "STU-" ++ pyUpper (pyTake (hexdigest (strBytes (u ++ k ++ t))) 8) ∧
    matchesStuPattern (generate_unique_student_id u k t) = true := by
  refine ⟨rfl, ?_⟩
  unfold generate_unique_student_id matchesStuPattern hexdigest pyUpper pyTake
  simp only [data_append]
  have hlen := sha256hexChars_length (strBytes (u ++ k ++ t))
  simp only [Bool.and_eq_true, beq_iff_eq, List.all_eq_true]
  refine ⟨⟨?_, ?_⟩, ?_⟩
  · simp [hlen]
  · have h4 : ("STU-".data).length = 4 := by decide
    rw [← h4, List.take_left]
  · intro c hc
    have h4 : ("STU-".data).length = 4 := by decide
    rw [← h4, List.drop_left] at hc
    simp only [List.mem_map] at hc
    obtain ⟨c', hc', rfl⟩ := hc
    exact toUpper_hexDigit (mem_sha256hexChars (List.take_subset _ _ hc'))

/-! ## The ticket layout (claim C6) -/

/-- C6: for every template image and inputs, the composition pastes the
180 by 180 profile photo at `(card_left + 25, card_top + 60)` and the
180 by 180 QR image at `(card_left + 800 - 180 - 25)` at the same
vertical position, draws the three text lines (name, year,
`ID: ...student id`) starting 30 pixels right of the photo at vertical
offsets 10, 70 and 110 from the photo's top edge, and the 800 by 300
card rectangle is centred on the template's geometric centre (in integer
pixel coordinates, the point `(width / 2, height / 2)`). -/
theorem C6_ticket_layout (t0 photo0 : Img) (fb fr : Font) (name year sid : String) :
    pastes (renderTicket t0 fb fr photo0 name year sid) =
      pastes t0 ++
        [(Img.resize photo0 180 180,
            cardLeft (imgWidth t0) + 25, cardTop (imgHeight t0) + 60),
         (Img.resize (Img.qrMake sid) 180 180,
            cardLeft (imgWidth t0) + 800 - 180 - 25, cardTop (imgHeight t0) + 60)] ∧
    texts (renderTicket t0 fb fr photo0 name year sid) =
      texts t0 ++
        [(cardLeft (imgWidth t0) + 25 + 180 + 30, cardTop (imgHeight t0) + 60 + 10,
            name, fb, "white"),
         (cardLeft (imgWidth t0) + 25 + 180 + 30, cardTop (imgHeight t0) + 60 + 70,
            year, fr, "#cccccc"),
         (cardLeft (imgWidth t0) + 25 + 180 + 30, cardTop (imgHeight t0) + 60 + 110,
            "ID: " ++ sid, fr, "#cccccc")] ∧
    cardLeft (imgWidth t0) + 400 = ((imgWidth t0 / 2 : Nat) : Int) ∧
    cardTop (imgHeight t0) + 150 = ((imgHeight t0 / 2 : Nat) : Int) := by
  refine ⟨?_, ?_, ?_, ?_⟩
  · simp [renderTicket, pastes, imgWidth, imgHeight]
  · simp [renderTicket, texts, imgWidth, imgHeight]
  · unfold cardLeft; norm_num
  · unfold cardTop; norm_num

/-! ## Duplicate roll numbers (claim C1) -/

theorem formComplete_spec (req : ReqForm) (hc : formComplete req = true) :
    ∃ n r y f, req.studentName = some n ∧ ¬n = "" ∧ req.rollNo = some r ∧ ¬r = "" ∧
      req.studyYear = some y ∧ ¬y = "" ∧ req.profileImage = some f ∧ ¬f.filename = "" := by
  rcases req with ⟨sn, rn, sy, pi⟩
  rcases sn with _ | n
  · simp [formComplete, truthyStr] at hc
  rcases rn with _ | r
  · simp [formComplete, truthyStr] at hc
  rcases sy with _ | y
  · simp [formComplete, truthyStr] at hc
  rcases pi with _ | f
  · simp [formComplete, truthyFile] at hc
  simp only [formComplete, truthyStr, truthyFile, Bool.and_eq_true, Bool.not_eq_eq_eq_not,
    Bool.not_true, beq_eq_false_iff_ne, ne_eq] at hc
  exact ⟨n, r, y, f, rfl, hc.1.1.1, rfl, hc.1.1.2, rfl, hc.1.2, rfl, hc.2⟩

/-- C1: when a registration with some roll number succeeds, any further
well-formed registration request with the same roll number gets a 409
response whose body is the error object with message
`Roll Number '<roll_no>' already exists.`, performs no write to the
record store or the asset store, and leaves the stored record (indeed the
whole server state) unchanged. -/
theorem C1_duplicate_roll_conflict (env1 env2 : Env) (st0 st1 : ServerState)
    (req1 req2 : ReqForm) (r1 : Response) (roll : String)
    (h1 : register_student_and_generate_ticket env1 st0 req1 = (st1, r1))
    (h200 : r1.status = 200)
    (hroll1 : req1.rollNo = some roll) (hroll2 : req2.rollNo = some roll)
    (hc : formComplete req2 = true) :
    register_student_and_generate_ticket env2 st1 req2 =
      (st1, ⟨409, RespBody.jsonError ("Roll Number '" ++ roll ++ "' already exists.")⟩) := by
  obtain ⟨db, n, r, y, f, url, t0, fb, fr, content, photo0, hdb, hn, hr, hy, hf, hval,
    hfind, hblob, hins, hT, hFB, hFR, hfetch, hdec, hst, hresp⟩ :=
    register_success_inv env1 st0 req1 st1 r1 h1 h200
  have hrr : r = roll := by
    rw [hr] at hroll1
    exact Option.some.inj hroll1
  simp only [hrr] at hfind hst
  obtain ⟨n2, r2, y2, f2, hn2, hne2, hr2, hre2, hy2, hye2, hf2, hfe2⟩ :=
    formComplete_spec req2 hc
  have hr2r : r2 = roll := by
    rw [hr2] at hroll2
    exact Option.some.inj hroll2
  rw [hr2r] at hr2 hre2
  subst hst
  rcases hfi : (insert_one db
      ⟨roll, generate_unique_student_id env1.uuid env1.secret env1.nowStr, n, y, url,
       "Active", env1.utcnow⟩).find? (fun x => x.roll_no == roll) with _ | rec
  · exfalso
    rw [List.find?_eq_none] at hfi
    refine hfi ⟨roll, generate_unique_student_id env1.uuid env1.secret env1.nowStr, n, y, url,
       "Active", env1.utcnow⟩ ?_ ?_
    · simp [insert_one]
    · simp
  · have hneg : ¬(n2 = "" ∨ roll = "" ∨ y2 = "" ∨ f2.filename = "") := by
      intro hcon
      rcases hcon with he | he | he | he
      · exact hne2 he
      · exact hre2 he
      · exact hye2 he
      · exact hfe2 he
    simp only [register_student_and_generate_ticket, hn2, hr2, hy2, hf2, if_neg hneg, hfi]

/-! ## Missing form data (claims C4 and C10) -/

/-- C4: on a server whose startup database connection succeeded, a
registration request in which any of the four inputs (`studentName`,
`rollNo`, `studyYear`, `profileImage`) is absent gets a 400 response with
the error object `Missing form data.`, and the server state (records and
assets) is returned unchanged: nothing is inserted and nothing is
uploaded. -/
theorem C4_missing_form_data (env : Env) (st : ServerState) (db : List StudentRecord)
    (req : ReqForm) (hdb : st.collection = some db)
    (hmiss : req.studentName = none ∨ req.rollNo = none ∨ req.studyYear = none ∨
      req.profileImage = none) :
    register_student_and_generate_ticket env st req =
      (st, ⟨400, RespBody.jsonError "Missing form data."⟩) := by
  rcases hn : req.studentName with _ | n
  · simp only [register_student_and_generate_ticket, hdb, hn]
  rcases hr : req.rollNo with _ | r
  · simp only [register_student_and_generate_ticket, hdb, hn, hr]
  rcases hy : req.studyYear with _ | y
  · simp only [register_student_and_generate_ticket, hdb, hn, hr, hy]
  rcases hf : req.profileImage with _ | f
  · simp only [register_student_and_generate_ticket, hdb, hn, hr, hy, hf]
  rw [hn, hr, hy, hf] at hmiss
  rcases hmiss with he | he | he | he <;> exact Option.noConfusion he

/-- C10: on a server whose startup database connection succeeded, a
registration request in which `studentName`, `rollNo` or `studyYear` is
present but equal to the empty string is treated like an absent field:
the response is a 400 with the error object `Missing form data.` and the
server state is returned unchanged, because the handler's presence check
uses Python truthiness (`not all([...])`) rather than key existence. -/
theorem C10_empty_field_like_missing (env : Env) (st : ServerState)
    (db : List StudentRecord) (req : ReqForm) (hdb : st.collection = some db)
    (hempty : req.studentName = some "" ∨ req.rollNo = some "" ∨ req.studyYear = some "") :
    register_student_and_generate_ticket env st req =
      (st, ⟨400, RespBody.jsonError "Missing form data."⟩) := by
  rcases hn : req.studentName with _ | n
  · simp only [register_student_and_generate_ticket, hdb, hn]
  rcases hr : req.rollNo with _ | r
  · simp only [register_student_and_generate_ticket, hdb, hn, hr]
  rcases hy : req.studyYear with _ | y
  · simp only [register_student_and_generate_ticket, hdb, hn, hr, hy]
  rcases hf : req.profileImage with _ | f
  · simp only [register_student_and_generate_ticket, hdb, hn, hr, hy, hf]
  rw [hn, hr, hy] at hempty
  have hcond : n = "" ∨ r = "" ∨ y = "" ∨ f.filename = "" := by
    rcases hempty with he | he | he
    · exact Or.inl (Option.some.inj he)
    · exact Or.inr (Or.inl (Option.some.inj he))
    · exact Or.inr (Or.inr (Or.inl (Option.some.inj he)))
  simp only [register_student_and_generate_ticket, hdb, hn, hr, hy, hf, if_pos hcond]

/-! ## The record store never rejects a duplicate insert (claim C2) -/

/-- C2 counterexample: the insert operation does not reject a record whose
roll number (or student id) already exists — the MongoDB collection has no
unique index beyond the implicit one on the document id, so `insert_one`
stores the duplicate.  At the concrete stores below, inserting a record
whose roll number (respectively student id) already occurs succeeds and
leaves both records stored, breaking roll-number uniqueness. -/
theorem C2_counterexample :
    (∃ x ∈ [recA], x.roll_no = recB.roll_no ∨ x.student_id = recB.student_id) ∧
    insert_one [recA] recB = [recA, recB] ∧ recB ∈ insert_one [recA] recB ∧
    (∃ x ∈ [recA], x.roll_no = recC.roll_no ∨ x.student_id = recC.student_id) ∧
    insert_one [recA] recC = [recA, recC] ∧ recC ∈ insert_one [recA] recC ∧
    ¬rollsUnique (insert_one [recA] recB) := by
  refine ⟨⟨recA, by decide, Or.inl (by decide)⟩, rfl, by decide,
    ⟨recA, by decide, Or.inr (by decide)⟩, rfl, by decide, ?_⟩
  intro hp
  rcases hp with _ | ⟨hhead, _⟩
  exact absurd (by decide : recA.roll_no = recB.roll_no) (hhead recB (by decide))

/-- C2 amended: the Record Store's insert operation stores the given
record unconditionally; it performs no uniqueness check of its own, so a
record whose roll number or student id already exists is stored alongside
the old one.  Roll-number uniqueness is enforced only by the preceding
Duplicate Check in the workflow. -/
theorem C2_amended_insert_stores_unconditionally (db : List StudentRecord)
    (rec x : StudentRecord) (hx : x ∈ db) :
    insert_one db rec = db ++ [rec] ∧ rec ∈ insert_one db rec ∧ x ∈ insert_one db rec := by
  refine ⟨rfl, ?_, ?_⟩
  · simp [insert_one]
  · simp [insert_one, hx]

theorem C2_amended_witness :
    insert_one [recA] recB = [recA] ++ [recB] ∧ recB ∈ insert_one [recA] recB ∧
    recA ∈ insert_one [recA] recB :=
  C2_amended_insert_stores_unconditionally [recA] recB recA (by decide)

/-! ## The error taxonomy (claim C3) -/

/-- C3 counterexample: a request that fails for a reason other than
missing form data or a duplicate roll number need not carry the generic
error body — when the startup database connection failed, the handler
returns a 500 whose body is the distinct error object
`Database connection failed at startup.`. -/
theorem C3_counterexample :
    (register_student_and_generate_ticket envW ⟨none, []⟩ reqW).2.status = 500 ∧
    (register_student_and_generate_ticket envW ⟨none, []⟩ reqW).2.status ≠ 400 ∧
    (register_student_and_generate_ticket envW ⟨none, []⟩ reqW).2.status ≠ 409 ∧
    (register_student_and_generate_ticket envW ⟨none, []⟩ reqW).2.body ≠
      RespBody.jsonError "An unexpected server error occurred." ∧
    (register_student_and_generate_ticket envW ⟨none, []⟩ reqW).2.body =
      RespBody.jsonError "Database connection failed at startup." := by
  refine ⟨rfl, by decide, by decide, by decide, rfl⟩

/-- C3 amended: every registration failure other than missing form data
(400) and a duplicate roll number (409) yields a 500; its body is the
generic error object `An unexpected server error occurred.` whenever the
collection was available, and the distinct error object
`Database connection failed at startup.` when the startup database
connection had failed. -/
theorem C3_amended_error_taxonomy (env : Env) (st : ServerState) (req : ReqForm)
    (st' : ServerState) (resp : Response)
    (h : register_student_and_generate_ticket env st req = (st', resp))
    (hne200 : resp.status ≠ 200) (hne400 : resp.status ≠ 400) (hne409 : resp.status ≠ 409) :
    resp.status = 500 ∧
      ((st.collection = none ∧
          resp.body = RespBody.jsonError "Database connection failed at startup.") ∨
       ((∃ db, st.collection = some db) ∧
          resp.body = RespBody.jsonError "An unexpected server error occurred.")) := by
  rcases hdb : st.collection with _ | db
  · simp only [register_student_and_generate_ticket, hdb, Prod.mk.injEq] at h
    rw [← h.2]
    simp
  rcases hn : req.studentName with _ | n
  · simp only [register_student_and_generate_ticket, hdb, hn, Prod.mk.injEq] at h
    rw [← h.2] at hne400
    simp at hne400
  rcases hr : req.rollNo with _ | r
  · simp only [register_student_and_generate_ticket, hdb, hn, hr, Prod.mk.injEq] at h
    rw [← h.2] at hne400
    simp at hne400
  rcases hy : req.studyYear with _ | y
  · simp only [register_student_and_generate_ticket, hdb, hn, hr, hy, Prod.mk.injEq] at h
    rw [← h.2] at hne400
    simp at hne400
  rcases hf : req.profileImage with _ | f
  · simp only [register_student_and_generate_ticket, hdb, hn, hr, hy, hf, Prod.mk.injEq] at h
    rw [← h.2] at hne400
    simp at hne400
  by_cases hval : (n = "" ∨ r = "" ∨ y = "" ∨ f.filename = "")
  · simp only [register_student_and_generate_ticket, hdb, hn, hr, hy, hf, if_pos hval,
      Prod.mk.injEq] at h
    rw [← h.2] at hne400
    simp at hne400
  rcases hfind : db.find? (fun x => x.roll_no == r) with _ | rec
  swap
  · simp only [register_student_and_generate_ticket, hdb, hn, hr, hy, hf, if_neg hval,
      hfind, Prod.mk.injEq] at h
    rw [← h.2] at hne409
    simp at hne409
  rcases hblob : env.blobPut
      (profileKey (generate_unique_student_id env.uuid env.secret env.nowStr) f)
      f.content with e | url
  · simp only [register_student_and_generate_ticket, hdb, hn, hr, hy, hf, if_neg hval,
      hfind, hblob, genericError, Prod.mk.injEq] at h
    rw [← h.2]
    simp
  rcases hins : env.insertOk with _ | _
  · simp only [register_student_and_generate_ticket, hdb, hn, hr, hy, hf, if_neg hval,
      hfind, hblob, hins, Bool.false_eq_true, if_false, genericError, Prod.mk.injEq] at h
    rw [← h.2]
    simp
  rcases hT : env.loadTemplate with e | t0
  · simp only [register_student_and_generate_ticket, hdb, hn, hr, hy, hf, if_neg hval,
      hfind, hblob, hins, eq_self_iff_true, if_true, hT, genericError, Prod.mk.injEq] at h
    rw [← h.2]
    simp
  rcases hFB : env.loadFontBold with e | fb
  · simp only [register_student_and_generate_ticket, hdb, hn, hr, hy, hf, if_neg hval,
      hfind, hblob, hins, eq_self_iff_true, if_true, hT, hFB, genericError, Prod.mk.injEq] at h
    rw [← h.2]
    simp
  rcases hFR : env.loadFontReg with e | fr
  · simp only [register_student_and_generate_ticket, hdb, hn, hr, hy, hf, if_neg hval,
      hfind, hblob, hins, eq_self_iff_true, if_true, hT, hFB, hFR, genericError,
      Prod.mk.injEq] at h
    rw [← h.2]
    simp
  rcases hfetch : env.fetch url with e | content
  · simp only [register_student_and_generate_ticket, hdb, hn, hr, hy, hf, if_neg hval,
      hfind, hblob, hins, eq_self_iff_true, if_true, hT, hFB, hFR, hfetch, genericError,
      Prod.mk.injEq] at h
    rw [← h.2]
    simp
  rcases hdec : env.decodePhoto content with e | photo0
  · simp only [register_student_and_generate_ticket, hdb, hn, hr, hy, hf, if_neg hval,
      hfind, hblob, hins, eq_self_iff_true, if_true, hT, hFB, hFR, hfetch, hdec,
      genericError, Prod.mk.injEq] at h
    rw [← h.2]
    simp
  simp only [register_student_and_generate_ticket, hdb, hn, hr, hy, hf, if_neg hval,
    hfind, hblob, hins, eq_self_iff_true, if_true, hT, hFB, hFR, hfetch, hdec,
    Prod.mk.injEq] at h
  rw [← h.2] at hne200
  simp at hne200

/-! ## No rollback of earlier side effects (claim C9) -/

/-- C9: once the duplicate check passed and the photo upload succeeded,
the uploaded asset stays in the asset store whatever happens later, and
once the insert succeeded the new record stays in the record store
whatever happens later (in particular when fetching the photo back or
rendering fails): the handler performs no compensating rollback, so the
final state is exactly the initial one extended by the upload and — when
the insert call succeeded — by the new record. -/
theorem C9_no_rollback_of_side_effects (env : Env) (st : ServerState)
    (db : List StudentRecord) (req : ReqForm) (n r y : String) (f : UploadedFile)
    (url : String) (st' : ServerState) (resp : Response)
    (h : register_student_and_generate_ticket env st req = (st', resp))
    (hdb : st.collection = some db)
    (hn : req.studentName = some n) (hr : req.rollNo = some r)
    (hy : req.studyYear = some y) (hf : req.profileImage = some f)
    (hval : ¬(n = "" ∨ r = "" ∨ y = "" ∨ f.filename = ""))
    (hfind : db.find? (fun x => x.roll_no == r) = none)
    (hblob : env.blobPut
        (profileKey (generate_unique_student_id env.uuid env.secret env.nowStr) f)
        f.content = Except.ok url) :
    st'.assets = st.assets ++
      [(profileKey (generate_unique_student_id env.uuid env.secret env.nowStr) f,
        f.content)] ∧
    st'.collection = some (db ++
      (if env.insertOk then
        [⟨r, generate_unique_student_id env.uuid env.secret env.nowStr, n, y, url,
          "Active", env.utcnow⟩]
       else [])) := by
  rcases hins : env.insertOk with _ | _
  · simp only [register_student_and_generate_ticket, hdb, hn, hr, hy, hf, if_neg hval,
      hfind, hblob, hins, Bool.false_eq_true, if_false, genericError, Prod.mk.injEq] at h
    rw [← h.1]
    simp
  · simp only [register_student_and_generate_ticket, hdb, hn, hr, hy, hf, if_neg hval,
      hfind, hblob, hins, eq_self_iff_true, if_true] at h
    split at h
    all_goals try split at h
    all_goals try split at h
    all_goals (rw [Prod.mk.injEq] at h; rw [← h.1]; simp [insert_one])

/-! ## Two-run determinism of the composition (claim C7) -/

/-- C7: the PNG byte stream returned by a successful registration is a
function of the compositor's inputs alone — two successful runs that
agree on the template, the two fonts, the photo decoder, the fetched
photo bytes, the identifier-generator inputs (hence the student id), the
student name and the study year return byte-identical response bodies,
whatever their record stores, roll numbers, file names or blob
placements were; in particular running the composition twice on the same
inputs yields byte-identical output. -/
theorem C7_compositor_two_run_determinism
    (env1 env2 : Env) (st1 st2 : ServerState) (req1 req2 : ReqForm)
    (st1' st2' : ServerState) (r1 r2 : Response) (photoBytes : Bytes)
    (hT : env1.loadTemplate = env2.loadTemplate)
    (hFB : env1.loadFontBold = env2.loadFontBold)
    (hFR : env1.loadFontReg = env2.loadFontReg)
    (hDec : env1.decodePhoto = env2.decodePhoto)
    (hfetchA : ∀ u, env1.fetch u = Except.ok photoBytes)
    (hfetchB : ∀ u, env2.fetch u = Except.ok photoBytes)
    (hu : env1.uuid = env2.uuid) (hsec : env1.secret = env2.secret)
    (hnow : env1.nowStr = env2.nowStr)
    (hname : req1.studentName = req2.studentName)
    (hyear : req1.studyYear = req2.studyYear)
    (h1 : register_student_and_generate_ticket env1 st1 req1 = (st1', r1))
    (h2 : register_student_and_generate_ticket env2 st2 req2 = (st2', r2))
    (h1s : r1.status = 200) (h2s : r2.status = 200) :
    r1.body = r2.body := by
  obtain ⟨dbA, nA, rollA, yA, fA, urlA, tA, fbA, frA, cA, pA, _, hnA, _, hyA, _, _, _, _, _,
    hTA, hFBA, hFRA, hfeA, hdeA, _, hrespA⟩ :=
    register_success_inv env1 st1 req1 st1' r1 h1 h1s
  obtain ⟨dbB, nB, rollB, yB, fB, urlB, tB, fbB, frB, cB, pB, _, hnB, _, hyB, _, _, _, _, _,
    hTB, hFBB, hFRB, hfeB, hdeB, _, hrespB⟩ :=
    register_success_inv env2 st2 req2 st2' r2 h2 h2s
  have hsid : generate_unique_student_id env1.uuid env1.secret env1.nowStr
      = generate_unique_student_id env2.uuid env2.secret env2.nowStr := by
    rw [hu, hsec, hnow]
  have hnn : nA = nB := by
    rw [hname] at hnA
    rw [hnA] at hnB
    exact Option.some.inj hnB
  have hyy : yA = yB := by
    rw [hyear] at hyA
    rw [hyA] at hyB
    exact Option.some.inj hyB
  have htt : tA = tB := by
    rw [hT] at hTA
    rw [hTA] at hTB
    exact Except.ok.inj hTB
  have hfbf : fbA = fbB := by
    rw [hFB] at hFBA
    rw [hFBA] at hFBB
    exact Except.ok.inj hFBB
  have hfrf : frA = frB := by
    rw [hFR] at hFRA
    rw [hFRA] at hFRB
    exact Except.ok.inj hFRB
  have hcA : cA = photoBytes := by
    rw [hfetchA urlA] at hfeA
    exact (Except.ok.inj hfeA).symm
  have hcB : cB = photoBytes := by
    rw [hfetchB urlB] at hfeB
    exact (Except.ok.inj hfeB).symm
  have hpp : pA = pB := by
    rw [hcA] at hdeA
    rw [hcB] at hdeB
    rw [hDec] at hdeA
    rw [hdeA] at hdeB
    exact Except.ok.inj hdeB
  rw [hrespA, hrespB]
  simp only [hsid, hnn, hyy, htt, hfbf, hfrf, hpp]

/-! ## The successful response is a full-template opaque PNG (claim C8) -/

/-- C8: every 200 response is a `send_file` PNG attachment named after the
student id, whose byte stream is the PNG encoding of a composed image
with exactly the template's pixel width and height and mode `RGB`
(flattened, no alpha channel). -/
theorem C8_success_response_full_template_png (env : Env) (st : ServerState)
    (req : ReqForm) (st' : ServerState) (resp : Response)
    (h : register_student_and_generate_ticket env st req = (st', resp))
    (h200 : resp.status = 200) :
    ∃ t0 img, env.loadTemplate = Except.ok t0 ∧
      resp.body = RespBody.file (encodePNG img) "image/png"
        (generate_unique_student_id env.uuid env.secret env.nowStr ++ "_ticket.png") ∧
      imgWidth img = imgWidth t0 ∧ imgHeight img = imgHeight t0 ∧ imgMode img = "RGB" := by
  obtain ⟨db, n, r, y, f, url, t0, fb, fr, content, photo0, hdb, hn, hr, hy, hf, hval,
    hfind, hblob, hins, hT, hFB, hFR, hfetch, hdec, hst, hresp⟩ :=
    register_success_inv env st req st' resp h h200
  refine ⟨t0, renderTicket t0 fb fr photo0 n y
      (generate_unique_student_id env.uuid env.secret env.nowStr), hT, ?_, ?_, ?_, ?_⟩
  · rw [hresp]
  · simp [renderTicket, imgWidth]
  · simp [renderTicket, imgHeight]
  · simp [renderTicket, imgMode]

/-! ## Closed witnesses -/

theorem C1_witness :
    register_student_and_generate_ticket envW
        (register_student_and_generate_ticket envW stW reqW).1 reqW =
      ((register_student_and_generate_ticket envW stW reqW).1,
       ⟨409, RespBody.jsonError ("Roll Number '" ++ "R1" ++ "' already exists.")⟩) :=
  C1_duplicate_roll_conflict envW envW stW
    (register_student_and_generate_ticket envW stW reqW).1 reqW reqW
    (register_student_and_generate_ticket envW stW reqW).2 "R1"
    rfl rfl rfl rfl (by decide)

theorem C4_witness :
    register_student_and_generate_ticket envW stW reqMissingRoll =
      (stW, ⟨400, RespBody.jsonError "Missing form data."⟩) :=
  C4_missing_form_data envW stW [] reqMissingRoll rfl (Or.inr (Or.inl rfl))

theorem C10_witness :
    register_student_and_generate_ticket envW stW reqEmptyName =
      (stW, ⟨400, RespBody.jsonError "Missing form data."⟩) :=
  C10_empty_field_like_missing envW stW [] reqEmptyName rfl (Or.inl rfl)

theorem C3_amended_witness :
    (register_student_and_generate_ticket envBlobFail stW reqW).2.status = 500 ∧
      ((stW.collection = none ∧
          (register_student_and_generate_ticket envBlobFail stW reqW).2.body =
            RespBody.jsonError "Database connection failed at startup.") ∨
       ((∃ db, stW.collection = some db) ∧
          (register_student_and_generate_ticket envBlobFail stW reqW).2.body =
            RespBody.jsonError "An unexpected server error occurred.")) :=
  C3_amended_error_taxonomy envBlobFail stW reqW
    (register_student_and_generate_ticket envBlobFail stW reqW).1
    (register_student_and_generate_ticket envBlobFail stW reqW).2
    rfl (by decide) (by decide) (by decide)

theorem C9_witness :
    (register_student_and_generate_ticket envFetchFail stW reqW).1.assets =
      stW.assets ++
        [(profileKey (generate_unique_student_id envFetchFail.uuid envFetchFail.secret
            envFetchFail.nowStr) fW, fW.content)] ∧
    (register_student_and_generate_ticket envFetchFail stW reqW).1.collection =
      some ([] ++
        (if envFetchFail.insertOk then
          [⟨"R1", generate_unique_student_id envFetchFail.uuid envFetchFail.secret
              envFetchFail.nowStr, "Alice", "Year 1", "https://blob.example/p.png",
            "Active", envFetchFail.utcnow⟩]
         else [])) :=
  C9_no_rollback_of_side_effects envFetchFail stW [] reqW "Alice" "R1" "Year 1" fW
    "https://blob.example/p.png"
    (register_student_and_generate_ticket envFetchFail stW reqW).1
    (register_student_and_generate_ticket envFetchFail stW reqW).2
    rfl rfl rfl rfl rfl rfl (by decide) rfl rfl

theorem C7_witness :
    (register_student_and_generate_ticket envW stW reqW).2.body =
      (register_student_and_generate_ticket envW stW reqW).2.body :=
  C7_compositor_two_run_determinism envW envW stW stW reqW reqW
    (register_student_and_generate_ticket envW stW reqW).1
    (register_student_and_generate_ticket envW stW reqW).1
    (register_student_and_generate_ticket envW stW reqW).2
    (register_student_and_generate_ticket envW stW reqW).2
    [9, 9, 9]
    rfl rfl rfl rfl (fun _ => rfl) (fun _ => rfl) rfl rfl rfl rfl rfl
    rfl rfl rfl rfl

theorem C8_witness :
    ∃ t0 img, envW.loadTemplate = Except.ok t0 ∧
      (register_student_and_generate_ticket envW stW reqW).2.body =
        RespBody.file (encodePNG img) "image/png"
          (generate_unique_student_id envW.uuid envW.secret envW.nowStr ++ "_ticket.png") ∧
      imgWidth img = imgWidth t0 ∧ imgHeight img = imgHeight t0 ∧ imgMode img = "RGB" :=
  C8_success_response_full_template_png envW stW reqW
    (register_student_and_generate_ticket envW stW reqW).1
    (register_student_and_generate_ticket envW stW reqW).2 rfl rfl
